import Mathlib

/-!
Verification development for the story-image generator application.

The embedding models the React component `App` of `src/App.tsx` as a pure
state machine over its `useState` fields, the auto-describe `useEffect` as a
firing predicate over consecutive renders, the dimension computation inside
`urlToDataUrl` over the rationals, and the two Gemini gateway operations of
`src/services/geminiService.ts` as functions parameterised by the remote
response. Asynchronous handlers are modelled run-to-completion: each takes
the outcome of its awaited call as an explicit argument.
-/

/-- The `useState` fields of `App` (src/App.tsx lines 61-69), in declaration
order. `currentLoadingMessage` (pure presentation text cycling) and the DOM
`fileInputRef` are omitted. `Option String` stands for `string | null`. -/
structure WorkflowState where
  productImage : Option String
  prompt : String
  isLoading : Bool
  error : Option String
  finalImageURI : Option String
  productUrl : String
  isLoadingUrl : Bool
  isGeneratingPrompt : Bool
  deriving DecidableEq, Repr

/-- JavaScript truthiness of a `string | null` value: `null` and `""` are
falsy, every other string is truthy. -/
def optTruthy (o : Option String) : Bool :=
  match o with
  | none => false
  | some s => decide (s ≠ "")

/-- Default prompt, src/App.tsx line 13. -/
def defaultPrompt : String :=
  "Um fundo vibrante e abstrato com toques de dourado e azul-petróleo, criando uma sensação luxuosa e moderna para a exibição de um produto."

/-- Error message set by `handleAnalyzeImage` on failure (src/App.tsx line 99). -/
def analyzeFailMsg : String :=
  "Não foi possível analisar a imagem. Por favor, tente descrever o fundo manualmente."

/-- Error message set by `handleGenerate` on failure (src/App.tsx line 152). -/
def composeFailMsg : String :=
  "Falha ao compor a imagem profissional. Por favor, tente novamente."

/-- Fallback error message of `handleUrlImport` (src/App.tsx line 135). -/
def urlImportFallbackMsg : String :=
  "Ocorreu um erro desconhecido ao importar da URL."

/-- Handler `handleReset` (src/App.tsx lines 168-179): clears the image fields, the
error, the loading flags and the URL buffer and restores the default prompt.
It does not touch `isGeneratingPrompt`. -/
def handleReset (s : WorkflowState) : WorkflowState :=
  { s with
    productImage := none
    finalImageURI := none
    error := none
    isLoading := false
    productUrl := ""
    isLoadingUrl := false
    prompt := defaultPrompt }

/-- Handler `handleImageUpload` (src/App.tsx lines 113-123) with a chosen file whose
`FileReader` produced `dataUrl`: reset, then install the product image. -/
def handleImageUpload (s : WorkflowState) (dataUrl : String) : WorkflowState :=
  { handleReset s with productImage := some dataUrl }

/-- Handler `handleAnalyzeImage` (src/App.tsx lines 91-104), run to completion with
the outcome of `generatePromptFromImage` given as `result`. Guard
`if (!productImage) return` uses JS truthiness. -/
def handleAnalyzeImage (s : WorkflowState) (result : Except Unit String) : WorkflowState :=
  if optTruthy s.productImage = false then s
  else
    let s1 := { s with isGeneratingPrompt := true, error := none }
    match result with
    | .ok generated => { s1 with prompt := generated, isGeneratingPrompt := false }
    | .error _ =>
        { s1 with
          error := some analyzeFailMsg
          prompt := defaultPrompt
          isGeneratingPrompt := false }

/-- The synchronous head of `handleUrlImport` (src/App.tsx lines 127-129):
`handleReset(); setIsLoadingUrl(true); setError(null)`. -/
def handleUrlImportStart (s : WorkflowState) : WorkflowState :=
  { handleReset s with isLoadingUrl := true, error := none }

/-- Handler `handleUrlImport` (src/App.tsx lines 125-139), run to completion.
`normalize` is `urlToDataUrl`; it receives the closure-captured `productUrl`
read before any state update. The failure branch uses
`e.message || fallback` (empty message is falsy). -/
def handleUrlImport (s : WorkflowState)
    (normalize : String → Except String String) : WorkflowState :=
  if s.productUrl = "" then s
  else
    let s1 := handleUrlImportStart s
    match normalize s.productUrl with
    | .ok dataUrl =>
        { s1 with productImage := some dataUrl, productUrl := "", isLoadingUrl := false }
    | .error msg =>
        { s1 with
          error := some (if msg = "" then urlImportFallbackMsg else msg)
          isLoadingUrl := false }

/-- The URL argument `handleUrlImport` passes to `urlToDataUrl`, or `none`
when the guard `if (!productUrl) return` fires and nothing is launched. -/
def handleUrlImportArg (s : WorkflowState) : Option String :=
  if s.productUrl = "" then none else some s.productUrl

/-- The synchronous head of `handleGenerate` (src/App.tsx lines 144-146):
`setIsLoading(true); setError(null); setFinalImageURI(null)`. -/
def handleGenerateStart (s : WorkflowState) : WorkflowState :=
  { s with isLoading := true, error := none, finalImageURI := none }

/-- The resumption of `handleGenerate` after `composeStoryImage` settles
(src/App.tsx lines 147-155). -/
def handleGenerateFinish (s : WorkflowState) (result : Except Unit String) : WorkflowState :=
  match result with
  | .ok finalImage => { s with finalImageURI := some finalImage, isLoading := false }
  | .error _ => { s with error := some composeFailMsg, isLoading := false }

/-- Handler `handleGenerate` (src/App.tsx lines 142-156), run to completion. Guard
`if (!prompt || !productImage) return` uses JS truthiness. -/
def handleGenerate (s : WorkflowState) (result : Except Unit String) : WorkflowState :=
  if s.prompt = "" ∨ optTruthy s.productImage = false then s
  else handleGenerateFinish (handleGenerateStart s) result

/-- The `(image, prompt)` arguments `handleGenerate` sends to
`composeStoryImage`, empty when its guard returns early. -/
def handleGenerateCalls (s : WorkflowState) : List (String × String) :=
  if s.prompt = "" ∨ optTruthy s.productImage = false then []
  else [(s.productImage.getD "", s.prompt)]

/-- The auto-describe `useEffect` (src/App.tsx lines 106-110). Its dependency
list is `[productImage, finalImageURI, handleAnalyzeImage]`, and the
`useCallback` identity of `handleAnalyzeImage` changes exactly when
`productImage` does, so the effect re-runs between two renders iff the pair
`(productImage, finalImageURI)` changed; its body then invokes
`handleAnalyzeImage()` iff `productImage && !finalImageURI`. -/
def autoDescribeFires (prev cur : WorkflowState) : Bool :=
  (decide (prev.productImage ≠ cur.productImage)
      || decide (prev.finalImageURI ≠ cur.finalImageURI))
    && optTruthy cur.productImage && !optTruthy cur.finalImageURI

/-- One completed orchestrator operation, with the outcome of its awaited
external call recorded in the constructor. -/
inductive Op where
  | uploadFile : String → Op
  | urlImport : (String → Except String String) → Op
  | analyze : Except Unit String → Op
  | generate : Except Unit String → Op
  | reset : Op

/-- Dispatch one completed operation. -/
def applyOp (op : Op) (s : WorkflowState) : WorkflowState :=
  match op with
  | .uploadFile d => handleImageUpload s d
  | .urlImport f => handleUrlImport s f
  | .analyze r => handleAnalyzeImage s r
  | .generate r => handleGenerate s r
  | .reset => handleReset s

/-- Run a sequence of completed operations. -/
def applyOps (ops : List Op) (s : WorkflowState) : WorkflowState :=
  ops.foldl (fun t op => applyOp op t) s

/-- The initial render state (src/App.tsx lines 61-69). -/
def initState : WorkflowState :=
  { productImage := none
    prompt := defaultPrompt
    isLoading := false
    error := none
    finalImageURI := none
    productUrl := ""
    isLoadingUrl := false
    isGeneratingPrompt := false }

/-- States reachable from the initial state by completed operations. -/
def Reachable (s : WorkflowState) : Prop :=
  ∃ ops : List Op, applyOps ops initState = s

/-- The spec's terminal-outcome invariant: `error` and `finalImage` are not
both present. -/
def ExclusiveOutcome (s : WorkflowState) : Prop :=
  ¬ (s.error.isSome = true ∧ s.finalImageURI.isSome = true)

/-- Constant `MAX_DIMENSION` of `urlToDataUrl` (src/App.tsx line 26). -/
def MAX_DIMENSION : ℚ := 1024

/-- The dimension computation inside `urlToDataUrl.onload` (src/App.tsx
lines 27-33), with JS numbers modelled over `ℚ`: if either dimension exceeds
`MAX_DIMENSION`, both are multiplied by
`min (MAX_DIMENSION / width) (MAX_DIMENSION / height)`. -/
def urlToDataUrlDims (width height : ℚ) : ℚ × ℚ :=
  if MAX_DIMENSION < width ∨ MAX_DIMENSION < height then
    let ratio := min (MAX_DIMENSION / width) (MAX_DIMENSION / height)
    (width * ratio, height * ratio)
  else (width, height)

/-- JS line terminators, which `.` in a regex without the `s` flag does not
match. -/
def lineTerminator (c : Char) : Bool :=
  c = '\n' || c = '\r' || c = '\u2028' || c = '\u2029'

/-- The literal `;base64,` separating the two capture groups of the data-URL
regex in src/services/geminiService.ts. -/
def b64sep : List Char := [';', 'b', 'a', 's', 'e', '6', '4', ',']

/-- The literal head `data:image/` that `^data:(image\/` forces. -/
def dataUrlHead : List Char := ['d', 'a', 't', 'a', ':', 'i', 'm', 'a', 'g', 'e', '/']

/-- After the literal head, position `i` splits the remaining characters into
a valid `(.+);base64,(.+)$` decomposition: at least one terminator-free
character before `;base64,`, at least one terminator-free character after. -/
def validSplitAt (cs : List Char) (i : Nat) : Bool :=
  let tail := (cs.drop i).drop 8
  ((cs.drop i).take 8 = b64sep) && decide (1 ≤ i) && decide (tail ≠ [])
    && (cs.take i).all (fun c => ! lineTerminator c)
    && tail.all (fun c => ! lineTerminator c)

/-- Model of `s.match(/^data:(image\/.+);base64,(.+)$/)` of
src/services/geminiService.ts (src/unnamed/part_000 lines 11 and 55):
returns the two capture groups `(mimeType, pureBase64)` or `none`. The
greedy `.+` of group 1 takes the largest valid split position. -/
def dataUrlMatch (s : String) : Option (String × String) :=
  let cs := s.data
  if cs.take 11 = dataUrlHead then
    let rest := cs.drop 11
    match (List.range (rest.length + 1)).reverse.find? (fun i => validSplitAt rest i) with
    | some i =>
        some (String.mk (dataUrlHead.drop 5 ++ rest.take i), String.mk ((rest.drop i).drop 8))
    | none => none
  else none

/-- Raw format error of `composeStoryImage` (src/unnamed/part_000 line 13). -/
def composeFormatErrMsg : String :=
  "Formato de string base64 inválido para a imagem do produto."

/-- No-image error of `composeStoryImage` (src/unnamed/part_000 line 43). -/
def composeNoImageMsg : String := "Nenhuma imagem foi gerada pela API."

/-- Wrapped failure of `composeStoryImage` (src/unnamed/part_000 line 47). -/
def composeWrapMsg : String := "Falha ao compor a imagem a partir da API Gemini."

/-- Raw format error of `generatePromptFromImage` (src/unnamed/part_000
line 57). -/
def describeFormatErrMsg : String := "Formato de string base64 inválido."

/-- Wrapped failure of `generatePromptFromImage` (src/unnamed/part_000
line 82). -/
def describeWrapMsg : String := "Falha ao gerar a descrição a partir da imagem."

/-- The `try` block of `composeStoryImage` (src/unnamed/part_000 lines
10-43). The remote response is a list of parts, each optionally carrying
`inlineData` as a `(mimeType, data)` pair; the loop returns the first part
with `inlineData` as a data URL, else throws the no-image error. -/
def composeStoryImageTry (productImageBase64 prompt : String)
    (remote : Except String (List (Option (String × String)))) : Except String String :=
  match dataUrlMatch productImageBase64 with
  | none => .error composeFormatErrMsg
  | some _ =>
    match remote with
    | .error e => .error e
    | .ok parts =>
      match parts.findSome?
          (fun p => p.map (fun md => "data:" ++ md.1 ++ ";base64," ++ md.2)) with
      | some dataUrl => .ok dataUrl
      | none => .error composeNoImageMsg

/-- Gateway operation `composeStoryImage` (src/unnamed/part_000 lines 9-49): any error of the
`try` block is caught and re-thrown as the fixed wrapped message. -/
def composeStoryImage (productImageBase64 prompt : String)
    (remote : Except String (List (Option (String × String)))) : Except String String :=
  match composeStoryImageTry productImageBase64 prompt remote with
  | .ok r => .ok r
  | .error _ => .error composeWrapMsg

/-- Whether `composeStoryImage` reaches its `ai.models.generateContent`
call: only after the data-URL regex matched. -/
def composeStoryImageRemoteCalled (productImageBase64 : String) : Bool :=
  (dataUrlMatch productImageBase64).isSome

/-- The `try` block of `generatePromptFromImage` (src/unnamed/part_000 lines
53-78): match the data-URL regex, then return the remote text. -/
def generatePromptFromImageTry (imageBase64 : String)
    (remote : Except String String) : Except String String :=
  match dataUrlMatch imageBase64 with
  | none => .error describeFormatErrMsg
  | some _ => remote

/-- Gateway operation `generatePromptFromImage` (src/unnamed/part_000 lines 52-84): any error
of the `try` block is caught and re-thrown as the fixed wrapped message. -/
def generatePromptFromImage (imageBase64 : String)
    (remote : Except String String) : Except String String :=
  match generatePromptFromImageTry imageBase64 remote with
  | .ok t => .ok t
  | .error _ => .error describeWrapMsg

/-- Whether `generatePromptFromImage` reaches its remote call. -/
def generatePromptFromImageRemoteCalled (imageBase64 : String) : Bool :=
  (dataUrlMatch imageBase64).isSome

/-- Helper: a truthy `string | null` value is not `null`. -/
theorem optTruthy_ne_none {o : Option String} (h : optTruthy o = true) : o ≠ none := by
  cases o with
  | none => simp [optTruthy] at h
  | some s => simp

/-- Helper: a truthy `string | null` value yields `isSome`. -/
theorem optTruthy_isSome {o : Option String} (h : optTruthy o = true) : o.isSome = true := by
  cases o with
  | none => simp [optTruthy] at h
  | some s => simp

/-- C8: `handleReset` clears `productImage`, `finalImage`, `error`,
`composing` (`isLoading`), `importingFromUrl` (`isLoadingUrl`) and
`sourceUrl` (`productUrl`), restores `prompt` to the fixed default, and
leaves `describingImage` (`isGeneratingPrompt`) unchanged. -/
theorem C8_reset_frame (s : WorkflowState) :
    (handleReset s).productImage = none ∧
    (handleReset s).finalImageURI = none ∧
    (handleReset s).error = none ∧
    (handleReset s).isLoading = false ∧
    (handleReset s).isLoadingUrl = false ∧
    (handleReset s).productUrl = "" ∧
    (handleReset s).prompt = defaultPrompt ∧
    (handleReset s).isGeneratingPrompt = s.isGeneratingPrompt := by
  simp [handleReset]

/-- C9: `handleReset` is idempotent — applying it twice yields the same
`WorkflowState` as applying it once. -/
theorem C9_reset_idempotent (s : WorkflowState) :
    handleReset (handleReset s) = handleReset s := rfl

/-- C6: when `prompt` is the empty string or `productImage` is absent,
`handleGenerate` performs no state mutation and issues no gateway call. -/
theorem C6_compose_noop (s : WorkflowState) (r : Except Unit String)
    (h : s.prompt = "" ∨ s.productImage = none) :
    handleGenerate s r = s ∧ handleGenerateCalls s = [] := by
  have hg : s.prompt = "" ∨ optTruthy s.productImage = false := by
    rcases h with h | h
    · exact Or.inl h
    · exact Or.inr (by simp [optTruthy, h])
  constructor
  · unfold handleGenerate
    rw [if_pos hg]
  · unfold handleGenerateCalls
    rw [if_pos hg]

/-- Witness for C6 at the initial state, where `productImage` is absent. -/
theorem C6_compose_noop_witness :
    handleGenerate initState (Except.ok "data-f") = initState ∧
    handleGenerateCalls initState = [] :=
  C6_compose_noop initState (Except.ok "data-f") (Or.inr rfl)

/-- Fixed failing normalizer used in concrete runs. -/
def urlCexNormalizeFail : String → Except String String :=
  fun _ => Except.error "load failed"

/-- C7: with an empty URL buffer, `handleUrlImport` performs no state
mutation and launches no normalization; in particular `handleReset` followed
by an import of the empty URL equals `handleReset` alone. -/
theorem C7_urlImport_empty_noop (s : WorkflowState)
    (f : String → Except String String) (h : s.productUrl = "") :
    handleUrlImport s f = s ∧ handleUrlImportArg s = none ∧
    handleUrlImport (handleReset s) f = handleReset s ∧
    handleUrlImportArg (handleReset s) = none := by
  refine ⟨?_, ?_, ?_, ?_⟩
  · unfold handleUrlImport
    rw [if_pos h]
  · unfold handleUrlImportArg
    rw [if_pos h]
  · unfold handleUrlImport
    rw [if_pos (show (handleReset s).productUrl = "" from rfl)]
  · unfold handleUrlImportArg
    rw [if_pos (show (handleReset s).productUrl = "" from rfl)]

/-- Witness for C7 at the initial state. -/
theorem C7_urlImport_empty_noop_witness :
    handleUrlImport initState urlCexNormalizeFail = initState ∧
    handleUrlImportArg initState = none ∧
    handleUrlImport (handleReset initState) urlCexNormalizeFail = handleReset initState ∧
    handleUrlImportArg (handleReset initState) = none :=
  C7_urlImport_empty_noop initState urlCexNormalizeFail rfl

/-- C5: with `productImage` present, a failed describe call leaves `prompt`
at the fixed default, `error` at the manual-description fallback message and
`describingImage` false; `describingImage` is also false after success. -/
theorem C5_describe_failure (s : WorkflowState)
    (h : optTruthy s.productImage = true) :
    (handleAnalyzeImage s (Except.error ())).prompt = defaultPrompt ∧
    (handleAnalyzeImage s (Except.error ())).error = some analyzeFailMsg ∧
    (handleAnalyzeImage s (Except.error ())).isGeneratingPrompt = false ∧
    ∀ p : String, (handleAnalyzeImage s (Except.ok p)).isGeneratingPrompt = false := by
  unfold handleAnalyzeImage
  rw [h]
  simp

/-- Concrete state with a product image, used to instantiate C5. -/
def describeCexState : WorkflowState :=
  { initState with productImage := some "data:image/png;base64,AAAA" }

/-- Witness for C5 at a concrete state holding a product image. -/
theorem C5_describe_failure_witness :
    (handleAnalyzeImage describeCexState (Except.error ())).prompt = defaultPrompt ∧
    (handleAnalyzeImage describeCexState (Except.error ())).error = some analyzeFailMsg ∧
    (handleAnalyzeImage describeCexState (Except.error ())).isGeneratingPrompt = false ∧
    ∀ p : String,
      (handleAnalyzeImage describeCexState (Except.ok p)).isGeneratingPrompt = false :=
  C5_describe_failure describeCexState (by decide)

/-- C10: on an input that does not match the data-URL regex, both gateway
operations fail without issuing a remote call, and the error produced is the
fixed wrapped message of each operation, never the raw format error. -/
theorem C10_gateway_format_guard (img prompt : String)
    (remoteC : Except String (List (Option (String × String))))
    (remoteD : Except String String)
    (h : dataUrlMatch img = none) :
    composeStoryImage img prompt remoteC = Except.error composeWrapMsg ∧
    composeStoryImageRemoteCalled img = false ∧
    generatePromptFromImage img remoteD = Except.error describeWrapMsg ∧
    generatePromptFromImageRemoteCalled img = false ∧
    composeWrapMsg ≠ composeFormatErrMsg ∧
    describeWrapMsg ≠ describeFormatErrMsg := by
  refine ⟨?_, ?_, ?_, ?_, by decide, by decide⟩
  · simp [composeStoryImage, composeStoryImageTry, h]
  · simp [composeStoryImageRemoteCalled, h]
  · simp [generatePromptFromImage, generatePromptFromImageTry, h]
  · simp [generatePromptFromImageRemoteCalled, h]

/-- Witness for C10 at the non-matching input `"hello"`. -/
theorem C10_gateway_format_guard_witness :
    composeStoryImage "hello" "um fundo" (Except.ok []) = Except.error composeWrapMsg ∧
    composeStoryImageRemoteCalled "hello" = false ∧
    generatePromptFromImage "hello" (Except.ok "texto") = Except.error describeWrapMsg ∧
    generatePromptFromImageRemoteCalled "hello" = false ∧
    composeWrapMsg ≠ composeFormatErrMsg ∧
    describeWrapMsg ≠ describeFormatErrMsg :=
  C10_gateway_format_guard "hello" "um fundo" (Except.ok []) (Except.ok "texto") (by decide)

/-- C4: the `urlToDataUrl` dimension computation keeps dimensions that are
both at most 1024 unchanged, and otherwise scales both by
`min (1024 / width) (1024 / height)`, so the larger output dimension equals
exactly 1024 and the aspect ratio is preserved. -/
theorem C4_url_dimensions (w h : ℚ) (hw : 0 < w) (hh : 0 < h) :
    (w ≤ 1024 → h ≤ 1024 → urlToDataUrlDims w h = (w, h)) ∧
    ((1024 < w ∨ 1024 < h) →
      max (urlToDataUrlDims w h).1 (urlToDataUrlDims w h).2 = 1024 ∧
      (urlToDataUrlDims w h).1 * h = (urlToDataUrlDims w h).2 * w) := by
  have hMD : MAX_DIMENSION = (1024 : ℚ) := rfl
  constructor
  · intro h1 h2
    unfold urlToDataUrlDims
    rw [if_neg]
    rw [hMD]
    push_neg
    exact ⟨h1, h2⟩
  · intro hex
    have hmax : 0 < max w h := lt_max_of_lt_left hw
    have hr : min (MAX_DIMENSION / w) (MAX_DIMENSION / h) = MAX_DIMENSION / max w h := by
      rcases le_total w h with hwh | hwh
      · rw [max_eq_right hwh]
        apply min_eq_right
        rw [hMD]
        gcongr
      · rw [max_eq_left hwh]
        apply min_eq_left
        rw [hMD]
        gcongr
    have hcond : MAX_DIMENSION < w ∨ MAX_DIMENSION < h := by rw [hMD]; exact hex
    have hdims : urlToDataUrlDims w h =
        (w * (MAX_DIMENSION / max w h), h * (MAX_DIMENSION / max w h)) := by
      unfold urlToDataUrlDims
      rw [if_pos hcond]
      rw [hr]
    rw [hdims]
    constructor
    · have hnn : (0 : ℚ) ≤ MAX_DIMENSION / max w h := by rw [hMD]; positivity
      calc max (w * (MAX_DIMENSION / max w h)) (h * (MAX_DIMENSION / max w h))
          = max w h * (MAX_DIMENSION / max w h) := (max_mul_of_nonneg _ _ hnn).symm
        _ = 1024 := by
            rw [mul_comm, div_mul_cancel₀ _ (ne_of_gt hmax), hMD]
    · ring

/-- Witness for C4 on 800×600 (kept) and 2048×512 (scaled to 1024×256). -/
theorem C4_url_dimensions_witness :
    urlToDataUrlDims 800 600 = (800, 600) ∧
    max (urlToDataUrlDims 2048 512).1 (urlToDataUrlDims 2048 512).2 = 1024 ∧
    (urlToDataUrlDims 2048 512).1 * 512 = (urlToDataUrlDims 2048 512).2 * 2048 :=
  ⟨(C4_url_dimensions 800 600 (by norm_num) (by norm_num)).1 (by norm_num) (by norm_num),
   ((C4_url_dimensions 2048 512 (by norm_num) (by norm_num)).2 (Or.inl (by norm_num))).1,
   ((C4_url_dimensions 2048 512 (by norm_num) (by norm_num)).2 (Or.inl (by norm_num))).2⟩

/-- Concrete render state holding both a product image and a final image,
with a non-empty prompt: the situation right before a second compose. -/
def composeCexPrev : WorkflowState :=
  { productImage := some "data:image/png;base64,PROD"
    prompt := "uma cena elegante"
    isLoading := false
    error := none
    finalImageURI := some "data:image/png;base64,FINAL"
    productUrl := ""
    isLoadingUrl := false
    isGeneratingPrompt := false }

/-- Counterexample to C1: starting a second compose clears `finalImageURI`
while `productImage` is unchanged and present, and the auto-describe effect
fires on that transition — a re-trigger caused by a state change other than
`productImage` changing, which the claim rules out. -/
theorem C1_counterexample :
    autoDescribeFires composeCexPrev (handleGenerateStart composeCexPrev) = true ∧
    (handleGenerateStart composeCexPrev).productImage = composeCexPrev.productImage ∧
    ¬ (composeCexPrev.prompt = "" ∨ optTruthy composeCexPrev.productImage = false) := by
  decide

/-- C1 amended: the auto-describe effect fires exactly on changes of the
`(productImage, finalImageURI)` dependency pair that land in a state with a
truthy `productImage` and no truthy `finalImageURI`. So (a) an upload into a
state without a product image triggers it, (b) it never fires when neither
dependency changed, and (c) it also fires when the start of a compose clears
an existing `finalImageURI` while `productImage` stays present. -/
theorem C1_auto_describe_amended :
    (∀ (s : WorkflowState) (d : String), s.productImage = none → d ≠ "" →
        autoDescribeFires s (handleImageUpload s d) = true) ∧
    (∀ prev cur : WorkflowState, prev.productImage = cur.productImage →
        prev.finalImageURI = cur.finalImageURI →
        autoDescribeFires prev cur = false) ∧
    (∀ s : WorkflowState, optTruthy s.productImage = true →
        optTruthy s.finalImageURI = true →
        autoDescribeFires s (handleGenerateStart s) = true) := by
  refine ⟨?_, ?_, ?_⟩
  · intro s d h hd
    simp [autoDescribeFires, handleImageUpload, handleReset, handleGenerateStart,
      optTruthy, h, hd]
  · intro prev cur h1 h2
    simp [autoDescribeFires, h1, h2]
  · intro s h1 h2
    have hne : s.finalImageURI ≠ none := optTruthy_ne_none h2
    simp [autoDescribeFires, handleGenerateStart, hne, h1,
      show optTruthy none = false from rfl]

/-- Witness for the amended C1 at concrete states: a first upload fires the
effect, an unchanged dependency pair does not, and a second compose start
with a final image present fires it again. -/
theorem C1_auto_describe_amended_witness :
    autoDescribeFires initState (handleImageUpload initState "data:image/png;base64,P1") = true ∧
    autoDescribeFires composeCexPrev composeCexPrev = false ∧
    autoDescribeFires composeCexPrev (handleGenerateStart composeCexPrev) = true :=
  ⟨C1_auto_describe_amended.1 initState "data:image/png;base64,P1" rfl (by decide),
   C1_auto_describe_amended.2.1 composeCexPrev composeCexPrev rfl rfl,
   C1_auto_describe_amended.2.2 composeCexPrev (by decide) (by decide)⟩

/-- Concrete state with a submitted URL in the buffer. -/
def urlCexState : WorkflowState :=
  { initState with productUrl := "https://example.com/p.png" }

/-- Fixed succeeding normalizer used in concrete runs. -/
def urlCexNormalizeOk : String → Except String String :=
  fun _ => Except.ok "data:image/jpeg;base64,NORM"

/-- Counterexample to C2: `handleUrlImport` runs the full `handleReset`,
which also clears `productUrl`. So already at the point the normalize call
is launched the state's URL buffer is empty, and after a failed import it is
still empty rather than holding the submitted text. -/
theorem C2_counterexample :
    urlCexState.productUrl = "https://example.com/p.png" ∧
    (handleUrlImportStart urlCexState).productUrl = "" ∧
    (handleUrlImport urlCexState urlCexNormalizeFail).productUrl = "" ∧
    (handleUrlImport urlCexState urlCexNormalizeFail).error = some "load failed" := by
  decide

/-- C2 amended: on a non-empty URL buffer, `handleUrlImport` applies full
`handleReset` semantics to every field including `productUrl` (plus setting
`importingFromUrl`), while the normalize call still receives the submitted
URL captured beforehand; on success it installs `productImage` over the
reset state, on failure it records the normalizer's message (or the generic
fallback for an empty message) over the reset state — in both cases the URL
buffer ends empty. -/
theorem C2_urlImport_amended (s : WorkflowState)
    (f : String → Except String String) (h : s.productUrl ≠ "") :
    handleUrlImportArg s = some s.productUrl ∧
    handleUrlImportStart s = { handleReset s with isLoadingUrl := true } ∧
    (handleUrlImportStart s).productUrl = "" ∧
    (∀ d, f s.productUrl = Except.ok d →
        handleUrlImport s f = { handleReset s with productImage := some d }) ∧
    (∀ msg, f s.productUrl = Except.error msg →
        handleUrlImport s f =
          { handleReset s with
              error := some (if msg = "" then urlImportFallbackMsg else msg) }) := by
  refine ⟨?_, ?_, rfl, ?_, ?_⟩
  · unfold handleUrlImportArg
    rw [if_neg h]
  · simp [handleUrlImportStart, handleReset]
  · intro d hd
    unfold handleUrlImport
    rw [if_neg h, hd]
    simp [handleUrlImportStart, handleReset]
  · intro msg hmsg
    unfold handleUrlImport
    rw [if_neg h, hmsg]
    simp [handleUrlImportStart, handleReset]

/-- Witness for the amended C2 at a concrete submitted URL, once with a
succeeding and once with a failing normalizer. -/
theorem C2_urlImport_amended_witness :
    handleUrlImportArg urlCexState = some urlCexState.productUrl ∧
    (handleUrlImportStart urlCexState).productUrl = "" ∧
    handleUrlImport urlCexState urlCexNormalizeOk =
      { handleReset urlCexState with productImage := some "data:image/jpeg;base64,NORM" } ∧
    handleUrlImport urlCexState urlCexNormalizeFail =
      { handleReset urlCexState with
          error := some (if "load failed" = "" then urlImportFallbackMsg else "load failed") } :=
  ⟨(C2_urlImport_amended urlCexState urlCexNormalizeOk (by decide)).1,
   (C2_urlImport_amended urlCexState urlCexNormalizeOk (by decide)).2.2.1,
   (C2_urlImport_amended urlCexState urlCexNormalizeOk (by decide)).2.2.2.1 _ rfl,
   (C2_urlImport_amended urlCexState urlCexNormalizeFail (by decide)).2.2.2.2 _ rfl⟩


/-- Operation sequence: upload, successful auto-describe, successful
compose, then a manual describe that fails while the final image exists. -/
def c3Ops : List Op :=
  [Op.uploadFile "data:image/png;base64,I1",
   Op.analyze (Except.ok "uma cena bonita"),
   Op.generate (Except.ok "data:image/png;base64,F1"),
   Op.analyze (Except.error ())]

/-- The state reached by `c3Ops`. -/
def c3CexState : WorkflowState := applyOps c3Ops initState

/-- Counterexample to C3: the state reached by upload → describe ok →
compose ok → manual describe failing is reachable by completed operations
and holds an error and a final image at the same time. -/
theorem C3_counterexample :
    Reachable c3CexState ∧
    c3CexState.error = some analyzeFailMsg ∧
    c3CexState.finalImageURI = some "data:image/png;base64,F1" :=
  ⟨⟨c3Ops, rfl⟩, by decide, by decide⟩

/-- Helper: a reset state has no terminal outcome at all. -/
theorem exclusive_reset (s : WorkflowState) : ExclusiveOutcome (handleReset s) := by
  simp [ExclusiveOutcome, handleReset]

/-- Helper: an upload installs a product image over a reset state, leaving
no terminal outcome. -/
theorem exclusive_uploadFile (s : WorkflowState) (d : String) :
    ExclusiveOutcome (handleImageUpload s d) := by
  simp [ExclusiveOutcome, handleImageUpload, handleReset]

/-- Helper: a completed URL import preserves the exclusion — it resets the
final image, so at most the error can be present afterwards. -/
theorem exclusive_urlImport (s : WorkflowState) (f : String → Except String String)
    (hexc : ExclusiveOutcome s) : ExclusiveOutcome (handleUrlImport s f) := by
  unfold handleUrlImport
  split
  · exact hexc
  · cases f s.productUrl with
    | ok dataUrl => simp [ExclusiveOutcome, handleUrlImportStart, handleReset]
    | error msg => simp [ExclusiveOutcome, handleUrlImportStart, handleReset]

/-- Helper: a completed compose preserves the exclusion — it clears both
outcomes at its start and reinstates exactly one of them. -/
theorem exclusive_generate (s : WorkflowState) (r : Except Unit String)
    (hexc : ExclusiveOutcome s) : ExclusiveOutcome (handleGenerate s r) := by
  unfold handleGenerate
  split
  · exact hexc
  · cases r with
    | ok img => simp [ExclusiveOutcome, handleGenerateFinish, handleGenerateStart]
    | error u => simp [ExclusiveOutcome, handleGenerateFinish, handleGenerateStart]

/-- Helper: a completed describe preserves the exclusion provided it does
not fail while a final image is present. -/
theorem exclusive_analyze (s : WorkflowState) (r : Except Unit String)
    (hexc : ExclusiveOutcome s)
    (hsafe : r = Except.error () → s.finalImageURI = none) :
    ExclusiveOutcome (handleAnalyzeImage s r) := by
  unfold handleAnalyzeImage
  split
  · exact hexc
  · cases r with
    | ok p => simp [ExclusiveOutcome]
    | error u =>
        have hfin : s.finalImageURI = none := hsafe rfl
        simp [ExclusiveOutcome, hfin]

/-- C3 amended: every completed operation preserves the mutual exclusion of
`error` and `finalImage`, except a failing describe performed while a final
image is present; that one operation makes both present at once. -/
theorem C3_exclusive_amended (s : WorkflowState) (op : Op) :
    (ExclusiveOutcome s → (op ≠ Op.analyze (Except.error ()) ∨ s.finalImageURI = none) →
        ExclusiveOutcome (applyOp op s)) ∧
    (optTruthy s.productImage = true → s.finalImageURI.isSome = true →
        (applyOp (Op.analyze (Except.error ())) s).error.isSome = true ∧
        (applyOp (Op.analyze (Except.error ())) s).finalImageURI.isSome = true) := by
  constructor
  · intro hexc hsafe
    cases op with
    | uploadFile d => exact exclusive_uploadFile s d
    | urlImport f => exact exclusive_urlImport s f hexc
    | analyze r =>
        refine exclusive_analyze s r hexc ?_
        intro hr
        rcases hsafe with hne | hfin
        · exact absurd (by rw [hr]) hne
        · exact hfin
    | generate r => exact exclusive_generate s r hexc
    | reset => exact exclusive_reset s
  · intro hprod hfin
    show (handleAnalyzeImage s (Except.error ())).error.isSome = true ∧
      (handleAnalyzeImage s (Except.error ())).finalImageURI.isSome = true
    unfold handleAnalyzeImage
    rw [hprod]
    simpa using hfin

/-- Concrete state with both a product image and a final image and no error,
used to instantiate the amended C3. -/
def c3PreState : WorkflowState :=
  { productImage := some "data:image/png;base64,I1"
    prompt := "uma cena bonita"
    isLoading := false
    error := none
    finalImageURI := some "data:image/png;base64,F1"
    productUrl := ""
    isLoadingUrl := false
    isGeneratingPrompt := false }

/-- Witness for the amended C3: a reset step preserves the exclusion, and a
failing describe at a state with a final image present makes both present. -/
theorem C3_exclusive_amended_witness :
    ExclusiveOutcome (applyOp Op.reset c3PreState) ∧
    (applyOp (Op.analyze (Except.error ())) c3PreState).error.isSome = true ∧
    (applyOp (Op.analyze (Except.error ())) c3PreState).finalImageURI.isSome = true :=
  ⟨(C3_exclusive_amended c3PreState Op.reset).1 (by simp [ExclusiveOutcome, c3PreState])
      (Or.inl (by intro h; cases h)),
   ((C3_exclusive_amended c3PreState (Op.analyze (Except.error ()))).2
      (by decide) (by decide)).1,
   ((C3_exclusive_amended c3PreState (Op.analyze (Except.error ()))).2
      (by decide) (by decide)).2⟩
